import Mathlib

/-!
Shallow embedding of the `pages` Go package (hkjn/pages, file `pages.go`).

The source file contains two concatenated versions of the package: the one
before the separator marker (lines 1-171, embedded here in namespace `V1`)
and the one after it (lines 172-335, embedded at top level).  Both are
request-dispatch wrappers: a `Page` binds a URI, a render function and a
parsed template set; `ServeHTTP` invokes the renderer, maps the resulting
`Result` to an HTTP response, and on success executes the base template.

Observable behaviour is modelled as a trace: a list of log events (what the
injected logger records) and a list of HTTP events (the calls the package
makes against the `http.ResponseWriter`, via the stdlib helpers
`http.Error`, `http.NotFound`, `http.Redirect`, and the template engine's
`ExecuteTemplate`).  The external collaborators (net/http response plumbing,
html/template) are modelled only at their observable surface:

  * `http.Error(w, msg, code)` sets two plain-text headers, writes the
    status code, then writes `msg` followed by a newline
    (`fmt.Fprintln`).
  * `http.NotFound(w, r)` is `http.Error(w, "404 page not found", 404)`.
  * `http.Redirect(w, r, url, code)` sets the `Location` header and writes
    the status code.  (The short HTML hyperlink body net/http adds for GET
    requests is a fixed function of `url` and `code` supplied by the
    external transport; it carries no information beyond the `Location`
    header and is omitted from the trace.)
  * `ExecuteTemplate(w, name, data)` is a function of the parsed template
    set: it yields the bytes written to `w` and an optional error; invoking
    an undefined template name errors without writing
    (`html/template: "name" is undefined`).

Machine integers do not overflow anywhere in the source (status codes are
small constants), so `Nat` is used directly.  Go `error` values are
modelled by `Option String` (their `%v` rendering); the `interface{}` data
payload by `Option α` for a type parameter `α` (Go `nil` = `none`).

The `logger == nil` process-abort checks and the panic inside
`template.Must` are startup-configuration failures outside the per-request
semantics: the model assumes a registered logger and parseable template
sources (claims about unparsable sources are not in scope here).
-/

/-- A log record produced through the injected `Logger` capability. -/
inductive LogEvent where
  | info : String → LogEvent
  | error : String → LogEvent
deriving DecidableEq, Repr

/-- A call made against the `http.ResponseWriter` (or the template engine
writing into it).  `tmplStart name data` records that `ExecuteTemplate`
was invoked with template `name` and input context `data`. -/
inductive HttpEvent (α : Type) where
  | header : String → String → HttpEvent α
  | status : Nat → HttpEvent α
  | body : String → HttpEvent α
  | tmplStart : String → Option α → HttpEvent α
deriving DecidableEq, Repr

/-- The full observable behaviour of one request: log records plus
response-writer calls. -/
structure Trace (α : Type) where
  log : List LogEvent
  http : List (HttpEvent α)
deriving DecidableEq, Repr

/-- An inbound HTTP request, at the granularity the package observes it:
its URL (used in log messages). -/
structure Request where
  url : String
deriving DecidableEq, Repr

/-- The process-wide configurable constants of the second (post-separator)
version of the package, with their source defaults. -/
structure Config where
  BaseTemplate : String := "base"
  BadRequestMsg : String := "Invalid request. Please try again later."
  ErrorParam : String := "error_msg"
deriving DecidableEq, Repr

/-- The process-wide configurable constants of the first (pre-separator)
version of the package, with their source defaults.  That version has no
`ErrorParam` variable: its `ShowError` hardcodes the parameter name
`error`. -/
structure ConfigV1 where
  BaseTemplate : String := "base"
  BadRequestMsg : String := "Bad request."
deriving DecidableEq, Repr

/-- The default configuration of the second version. -/
def defaultConfig : Config := {}

/-- The default configuration of the first version. -/
def defaultConfigV1 : ConfigV1 := {}

/-! ### URL query encoding (Go `net/url`, mode `encodeQueryComponent`) -/

/-- Uppercase hexadecimal digit, as used by Go's percent-encoding. -/
def hexDigitUpper (n : Nat) : Char :=
  if n = 0 then '0' else if n = 1 then '1' else if n = 2 then '2'
  else if n = 3 then '3' else if n = 4 then '4' else if n = 5 then '5'
  else if n = 6 then '6' else if n = 7 then '7' else if n = 8 then '8'
  else if n = 9 then '9' else if n = 10 then 'A' else if n = 11 then 'B'
  else if n = 12 then 'C' else if n = 13 then 'D' else if n = 14 then 'E'
  else 'F'

/-- UTF-8 byte sequence of a character (Go strings are byte strings in
UTF-8; `net/url` escapes byte by byte). -/
def charUtf8Bytes (c : Char) : List Nat :=
  let n := c.toNat
  if n < 128 then [n]
  else if n < 2048 then [192 + n / 64, 128 + n % 64]
  else if n < 65536 then [224 + n / 4096, 128 + (n / 64) % 64, 128 + n % 64]
  else [240 + n / 262144, 128 + (n / 4096) % 64, 128 + (n / 64) % 64, 128 + n % 64]

/-- Go `url.shouldEscape` (query mode) complement: bytes left unescaped are
ASCII alphanumerics and `-`, `_`, `.`, `~`. -/
def isUnreservedQueryByte (n : Nat) : Bool :=
  (48 ≤ n && n ≤ 57) || (65 ≤ n && n ≤ 90) || (97 ≤ n && n ≤ 122) ||
    n == 45 || n == 95 || n == 46 || n == 126

/-- Escape one byte as Go `url.QueryEscape` does: unreserved bytes pass
through, space becomes `+`, everything else becomes `%XX` (uppercase). -/
def queryEscapeByte (n : Nat) : String :=
  if isUnreservedQueryByte n then String.singleton (Char.ofNat n)
  else if n == 32 then "+"
  else "%" ++ String.singleton (hexDigitUpper (n / 16)) ++
    String.singleton (hexDigitUpper (n % 16))

/-- Go `url.QueryEscape`. -/
def queryEscape (s : String) : String :=
  String.join ((s.toList.map charUtf8Bytes).flatten.map queryEscapeByte)

/-- Join strings with `&` between them, as `url.Values.Encode` does. -/
def joinAmp : List String → String
  | [] => ""
  | [x] => x
  | x :: y :: rest => x ++ "&" ++ joinAmp (y :: rest)

/-- Lexicographic order on character lists by code point. -/
def charListLt : List Char → List Char → Bool
  | [], [] => false
  | [], _ :: _ => true
  | _ :: _, [] => false
  | a :: as, b :: bs =>
      a.toNat < b.toNat || (a.toNat == b.toNat && charListLt as bs)

/-- Go string comparison (byte-wise lexicographic; UTF-8 preserves code
point order, so comparing code points is equivalent). -/
def goStringLt (a b : String) : Bool := charListLt a.toList b.toList

/-- Insert a key/values pair into a list sorted by key (Go `Encode` sorts
the map's keys with `sort.Strings`; map keys are unique, so any total
order on the present keys matches). -/
def insertByKey (p : String × List String) :
    List (String × List String) → List (String × List String)
  | [] => [p]
  | q :: rest =>
      if goStringLt p.1 q.1 then p :: q :: rest else q :: insertByKey p rest

/-- Sort an association list by key (insertion sort). -/
def sortByKey : List (String × List String) → List (String × List String)
  | [] => []
  | p :: rest => insertByKey p (sortByKey rest)

/-- Go `url.Values.Encode`: sort keys, escape each key and value, join the
`k=v` pairs with `&`. -/
def urlValuesEncode (vs : List (String × List String)) : String :=
  joinAmp ((sortByKey vs).map
    (fun kv => kv.2.map (fun v => queryEscape kv.1 ++ "=" ++ queryEscape v))).flatten

/-- Go `%q` of a string containing no characters that need escaping: wrap
in double quotes (sufficient for the URLs formatted in this package). -/
def goQuote (s : String) : String := "\"" ++ s ++ "\""

/-! ### net/http helper models -/

/-- Observable calls of `http.Error(w, msg, code)`: plain-text headers, the
status code, then `msg` with a trailing newline (`fmt.Fprintln`). -/
def httpError (α : Type) (msg : String) (code : Nat) : List (HttpEvent α) :=
  [HttpEvent.header "Content-Type" "text/plain; charset=utf-8",
   HttpEvent.header "X-Content-Type-Options" "nosniff",
   HttpEvent.status code,
   HttpEvent.body (msg ++ "\n")]

/-- Observable calls of `http.NotFound(w, r)`, which is
`http.Error(w, "404 page not found", 404)`. -/
def httpNotFound (α : Type) : List (HttpEvent α) :=
  httpError α "404 page not found" 404

/-- Observable calls of `http.Redirect(w, r, url, code)`: the `Location`
header and the status code. -/
def httpRedirect (α : Type) (url : String) (code : Nat) : List (HttpEvent α) :=
  [HttpEvent.header "Location" url, HttpEvent.status code]

/-- One step of the response-writer state machine: the first status write
commits the status; a body write with no status committed commits the
implicit 200; later status writes are ignored (Go logs them as
superfluous). -/
def wireStep (acc : Option Nat × String) : HttpEvent α → Option Nat × String
  | HttpEvent.status c => (acc.1.getD c |> some, acc.2)
  | HttpEvent.body s => ((acc.1.getD 200 |> some), acc.2 ++ s)
  | _ => acc

/-- The HTTP status and body a client sees from a trace of writer calls
(status defaults to 200 when the handler returns without writing). -/
def wireOf (evs : List (HttpEvent α)) : Nat × String :=
  let fin := evs.foldl wireStep (none, "")
  (fin.1.getD 200, fin.2)

/-- Whether an event is a template-engine invocation. -/
def isTmplStart : HttpEvent α → Bool
  | HttpEvent.tmplStart _ _ => true
  | _ => false

/-- `true` when the trace contains no template-engine invocation. -/
def noTemplate (evs : List (HttpEvent α)) : Bool :=
  evs.all (fun e => !isTmplStart e)

/-! ### Template engine model -/

/-- A parsed template set, as `ServeHTTP` observes it: looking up a name
yields the template's execution function (bytes written, optional error),
or nothing when no template of that name is defined. -/
def TemplateSet (α : Type) : Type :=
  String → Option (Option α → String × Option String)

/-- Go `ExecuteTemplate(w, name, data)`: an undefined name errors without
writing; otherwise the named template runs on `data`. -/
def executeTemplate (t : TemplateSet α) (name : String) (d : Option α) :
    String × Option String :=
  match t name with
  | none => ("", some ("html/template: " ++ goQuote name ++ " is undefined"))
  | some f => f d

/-- A template source file that parses successfully: its defining name and
its execution behaviour.  (`template.Must` aborts on a parse failure; the
claims here concern lists whose sources all parse.) -/
structure TmplSrc (α : Type) where
  name : String
  run : Option α → String × Option String

/-- Go `template.ParseFiles`: templates are associated by name, a later
file with the same name replacing an earlier one. -/
def parseFiles (srcs : List (TmplSrc α)) : TemplateSet α :=
  fun n => (srcs.reverse.find? (fun s => s.name == n)).map TmplSrc.run

/-! ### The second (post-separator) version of the package, lines 172-335 -/

/-- `Result` (lines 223-229): the outcome of rendering a page.  Field
defaults are Go zero values (`nil` data and error, code `0`, empty
`next`). -/
structure Result (α : Type) where
  data : Option α := none
  responseCode : Nat := 0
  err : Option String := none
  next : String := ""
deriving DecidableEq, Repr

/-- `StatusOK` (lines 231-237). -/
def StatusOK (d : α) : Result α :=
  { responseCode := 200, data := some d }

/-- `BadRequestWith` (lines 239-245). -/
def BadRequestWith (α : Type) (e : String) : Result α :=
  { responseCode := 400, err := some e }

/-- `UnauthorizedWith` (lines 247-253). -/
def UnauthorizedWith (α : Type) (e : String) : Result α :=
  { responseCode := 401, err := some e }

/-- `InternalErrorWith` (lines 255-261). -/
def InternalErrorWith (α : Type) (e : String) : Result α :=
  { responseCode := 500, err := some e }

/-- `RedirectWith` (lines 263-269): see-other (303) with the target URI in
`next`. -/
def RedirectWith (α : Type) (uri : String) : Result α :=
  { responseCode := 303, next := uri }

/-- Package variable `StatusBadRequest` (line 195). -/
def StatusBadRequest (α : Type) : Result α := { responseCode := 400 }

/-- Package variable `StatusUnauthorized` (line 196). -/
def StatusUnauthorized (α : Type) : Result α := { responseCode := 401 }

/-- Package variable `StatusNotFound` (line 197). -/
def StatusNotFound (α : Type) : Result α := { responseCode := 404 }

/-- Package variable `StatusInternalError` (line 198). -/
def StatusInternalError (α : Type) : Result α := { responseCode := 500 }

/-- `Page` (lines 205-209).  The renderer is modelled as a pure function
from the request to its `Result` (any bytes a renderer writes to `w`
itself are its own behaviour, not the package's dispatch). -/
structure Page (α : Type) where
  URI : String
  Render : Request → Result α
  tmpl : TemplateSet α

/-- `Add` (lines 214-221): parse the sources and bind them with the URI
and renderer.  The sources here are parseable by construction, so
`template.Must` succeeds and `Add` returns normally. -/
def Pages.Add (uri : String) (render : Request → Result α) (srcs : List (TmplSrc α)) :
    Page α :=
  { URI := uri, Render := render, tmpl := parseFiles srcs }

/-- The response-writing part of `ServeHTTP` (lines 309-334): everything
after the renderer has produced `pr`. -/
def dispatch (cfg : Config) (t : TemplateSet α) (r : Request) (pr : Result α) :
    Trace α :=
  if pr.err ≠ none ∨ pr.responseCode ≠ 200 then
    { log :=
        match pr.err with
        | some e => [LogEvent.error ("Error while rendering " ++ r.url ++ ": " ++ e ++ "\n")]
        | none => [],
      http :=
        if pr.responseCode = 404 then httpNotFound α
        else if pr.responseCode = 400 then httpError α "Bad request" 400
        else if pr.responseCode = 303 then httpRedirect α pr.next 303
        else httpError α "Internal server error." pr.responseCode }
  else
    match executeTemplate t cfg.BaseTemplate pr.data with
    | (out, none) =>
        { log := [],
          http := HttpEvent.tmplStart cfg.BaseTemplate pr.data ::
            (if out = "" then [] else [HttpEvent.body out]) }
    | (out, some e) =>
        { log := [LogEvent.error ("Failed to render template: " ++ e)],
          http := (HttpEvent.tmplStart cfg.BaseTemplate pr.data ::
              (if out = "" then [] else [HttpEvent.body out])) ++
            httpError α "Internal server error." 500 }

/-- `ServeHTTP` (lines 303-335): log entry, invoke the renderer, dispatch
on the result.  (Go `%+v` of the page is abstracted by its URI, the only
printable identity a `Page` carries.) -/
def serveHTTP (cfg : Config) (p : Page α) (r : Request) : Trace α :=
  let d := dispatch cfg p.tmpl r (p.Render r)
  { log := LogEvent.info ("Page " ++ p.URI ++ " will ServeHTTP for URL: " ++ r.url) :: d.log,
    http := d.http }

/-- `ShowError` (lines 275-283): log the raw error, redirect see-other to
the root with the configured message under the configured parameter. -/
def showError (α : Type) (cfg : Config) (_r : Request) (err : String) : Trace α :=
  let nextUrl := "/?" ++ urlValuesEncode [(cfg.ErrorParam, [cfg.BadRequestMsg])]
  { log := [LogEvent.error ("returning StatusBadRequest and redirecting to " ++
      goQuote nextUrl ++ ": " ++ err ++ "\n")],
    http := httpRedirect α nextUrl 303 }

/-- `Values` (line 286): simple URL params (Go `map[string]string`,
modelled as an association list with pairwise-distinct keys and arbitrary
order). -/
def Values : Type := List (String × String)

/-- `Values.UrlValues` (lines 289-295). -/
def Values.UrlValues (vs : Values) : List (String × List String) :=
  vs.map (fun kv => (kv.1, [kv.2]))

/-- `Values.AddTo` (lines 298-300). -/
def Values.AddTo (v : Values) (uri : String) : String :=
  uri ++ "?" ++ urlValuesEncode v.UrlValues

/-! ### The first (pre-separator) version of the package, lines 1-171 -/

namespace V1

/-- `Result` of the first version (lines 62-66): no `next` field. -/
structure Result (α : Type) where
  data : Option α := none
  responseCode : Nat := 0
  err : Option String := none
deriving DecidableEq, Repr

/-- `StatusOK` of the first version (lines 69-74). -/
def StatusOK (d : α) : Result α :=
  { responseCode := 200, data := some d }

/-- `BadRequestWith` of the first version (lines 77-82). -/
def BadRequestWith (α : Type) (e : String) : Result α :=
  { responseCode := 400, err := some e }

/-- Package variable `StatusBadRequest` of the first version (line 29). -/
def StatusBadRequest (α : Type) : Result α := { responseCode := 400 }

/-- Package variable `StatusNotFound` of the first version (line 30). -/
def StatusNotFound (α : Type) : Result α := { responseCode := 404 }

/-- Package variable `StatusInternalError` of the first version (line 31). -/
def StatusInternalError (α : Type) : Result α := { responseCode := 500 }

/-- `Page` of the first version (lines 43-47). -/
structure Page (α : Type) where
  URI : String
  Render : Request → Result α
  tmpl : TemplateSet α

/-- The response-writing part of the first version's `ServeHTTP`
(lines 125-148): no see-other branch. -/
def dispatch (cfg : ConfigV1) (t : TemplateSet α) (r : Request) (pr : Result α) :
    Trace α :=
  if pr.err ≠ none ∨ pr.responseCode ≠ 200 then
    { log :=
        match pr.err with
        | some e => [LogEvent.error ("Error while rendering " ++ r.url ++ ": " ++ e ++ "\n")]
        | none => [],
      http :=
        if pr.responseCode = 404 then httpNotFound α
        else if pr.responseCode = 400 then httpError α "Bad request" 400
        else httpError α "Internal server error." pr.responseCode }
  else
    match executeTemplate t cfg.BaseTemplate pr.data with
    | (out, none) =>
        { log := [],
          http := HttpEvent.tmplStart cfg.BaseTemplate pr.data ::
            (if out = "" then [] else [HttpEvent.body out]) }
    | (out, some e) =>
        { log := [LogEvent.error ("Failed to render template: " ++ e)],
          http := (HttpEvent.tmplStart cfg.BaseTemplate pr.data ::
              (if out = "" then [] else [HttpEvent.body out])) ++
            httpError α "Internal server error." 500 }

/-- `ServeHTTP` of the first version (lines 116-149). -/
def serveHTTP (cfg : ConfigV1) (p : Page α) (r : Request) : Trace α :=
  let d := dispatch cfg p.tmpl r (p.Render r)
  { log := LogEvent.info ("Page " ++ p.URI ++ " will ServeHTTP for URL: " ++ r.url) :: d.log,
    http := d.http }

/-- `ShowError` of the first version (lines 88-99): the parameter name
`error` is hardcoded and the redirect status is `http.StatusBadRequest`
(400), not see-other. -/
def showError (α : Type) (cfg : ConfigV1) (_r : Request) (err : String) : Trace α :=
  let nextUrl := "/?" ++ urlValuesEncode [("error", [cfg.BadRequestMsg])]
  { log := [LogEvent.error ("returning StatusBadRequest and redirecting to " ++
      goQuote nextUrl ++ ": " ++ err ++ "\n")],
    http := httpRedirect α nextUrl 400 }

end V1

/-- Reinterpret a first-version `Result` in the second version: the fields
shared by both keep their values and `next` takes its zero value. -/
def resultToV2 (pr : V1.Result α) : Result α :=
  { data := pr.data, responseCode := pr.responseCode, err := pr.err, next := "" }

/-- Reinterpret a first-version `Page` in the second version: same URI,
same template set, and the renderer's results reinterpreted. -/
def pageToV2 (p : V1.Page α) : Page α :=
  { URI := p.URI, Render := fun r => resultToV2 (p.Render r), tmpl := p.tmpl }

/-! ### Helper lemmas about `dispatch` and `serveHTTP` -/

/-- The response-writer calls of `serveHTTP` are those of `dispatch` on the
renderer's result. -/
theorem serveHTTP_http (cfg : Config) (p : Page α) (r : Request) :
    (serveHTTP cfg p r).http = (dispatch cfg p.tmpl r (p.Render r)).http := rfl

/-- The log of `serveHTTP` is the entry line followed by the log of
`dispatch` on the renderer's result. -/
theorem serveHTTP_log (cfg : Config) (p : Page α) (r : Request) :
    (serveHTTP cfg p r).log =
      LogEvent.info ("Page " ++ p.URI ++ " will ServeHTTP for URL: " ++ r.url) ::
        (dispatch cfg p.tmpl r (p.Render r)).log := rfl

/-- On the non-OK path, the response-writer calls of `dispatch` are the
status-dispatch chain of the source (lines 313-321). -/
theorem dispatch_http_of_guard (cfg : Config) (t : TemplateSet α) (r : Request)
    (pr : Result α) (hg : pr.err ≠ none ∨ pr.responseCode ≠ 200) :
    (dispatch cfg t r pr).http =
      if pr.responseCode = 404 then httpNotFound α
      else if pr.responseCode = 400 then httpError α "Bad request" 400
      else if pr.responseCode = 303 then httpRedirect α pr.next 303
      else httpError α "Internal server error." pr.responseCode := by
  unfold dispatch
  rw [if_pos hg]

/-- A result with code 404 produces a standard not-found response. -/
theorem dispatch_http_notFound (cfg : Config) (t : TemplateSet α) (r : Request)
    (pr : Result α) (h : pr.responseCode = 404) :
    (dispatch cfg t r pr).http = httpNotFound α := by
  rw [dispatch_http_of_guard cfg t r pr (Or.inr (by rw [h]; decide)), if_pos h]

/-- A result with code 400 produces the fixed bad-request response. -/
theorem dispatch_http_badRequest (cfg : Config) (t : TemplateSet α) (r : Request)
    (pr : Result α) (h : pr.responseCode = 400) :
    (dispatch cfg t r pr).http = httpError α "Bad request" 400 := by
  rw [dispatch_http_of_guard cfg t r pr (Or.inr (by rw [h]; decide)),
    if_neg (by rw [h]; decide), if_pos h]

/-- A result with code 303 produces a redirect to its `next` target. -/
theorem dispatch_http_seeOther (cfg : Config) (t : TemplateSet α) (r : Request)
    (pr : Result α) (h : pr.responseCode = 303) :
    (dispatch cfg t r pr).http = httpRedirect α pr.next 303 := by
  rw [dispatch_http_of_guard cfg t r pr (Or.inr (by rw [h]; decide)),
    if_neg (by rw [h]; decide), if_neg (by rw [h]; decide), if_pos h]

/-- A result with any non-OK code outside the named branches produces the
fixed internal-server-error text with the result's own code. -/
theorem dispatch_http_fallback (cfg : Config) (t : TemplateSet α) (r : Request)
    (pr : Result α) (h200 : pr.responseCode ≠ 200) (h404 : pr.responseCode ≠ 404)
    (h400 : pr.responseCode ≠ 400) (h303 : pr.responseCode ≠ 303) :
    (dispatch cfg t r pr).http =
      httpError α "Internal server error." pr.responseCode := by
  rw [dispatch_http_of_guard cfg t r pr (Or.inr h200),
    if_neg h404, if_neg h400, if_neg h303]

/-- On the OK path (nil error, code 200), `dispatch` executes the base
template and, when the engine reports failure, follows with the fixed
500 response (lines 325-334). -/
theorem dispatch_ok (cfg : Config) (t : TemplateSet α) (r : Request) (d : α) :
    dispatch cfg t r (StatusOK d) =
      match executeTemplate t cfg.BaseTemplate (some d) with
      | (out, none) =>
          { log := [],
            http := HttpEvent.tmplStart cfg.BaseTemplate (some d) ::
              (if out = "" then [] else [HttpEvent.body out]) }
      | (out, some e) =>
          { log := [LogEvent.error ("Failed to render template: " ++ e)],
            http := (HttpEvent.tmplStart cfg.BaseTemplate (some d) ::
                (if out = "" then [] else [HttpEvent.body out])) ++
              httpError α "Internal server error." 500 } := by
  unfold dispatch
  rw [if_neg (by simp [StatusOK])]
  simp only [StatusOK]

/-! ### Concrete fixtures used by witnesses -/

/-- A concrete request used in witness instantiations. -/
def witnessReq : Request := { url := "/u" }

/-- A template set defining no templates at all. -/
def emptyTmpl : TemplateSet String := fun _ => none

/-- A page whose renderer returns a fixed result, used in witness
instantiations. -/
def witnessPage (pr : Result String) : Page String :=
  { URI := "/w", Render := fun _ => pr, tmpl := emptyTmpl }

/-! ### Claim theorems -/

/-- C1: for every request and every Result whose response code is 404, 400
or 500, `Page.ServeHTTP` writes exactly the status and body of the table —
404 with the standard not-found response, 400 with body `Bad request`, 500
with body `Internal server error.` (each followed by the newline
`http.Error` appends) — regardless of the Result's data contents, and
executes no template. -/
theorem serveHTTP_non_ok_fixed_responses (cfg : Config) (p : Page α) (r : Request)
    (h : (p.Render r).responseCode = 404 ∨ (p.Render r).responseCode = 400 ∨
      (p.Render r).responseCode = 500) :
    ((p.Render r).responseCode = 404 →
      (serveHTTP cfg p r).http = httpNotFound α ∧
      wireOf (serveHTTP cfg p r).http = (404, "404 page not found\n")) ∧
    ((p.Render r).responseCode = 400 →
      (serveHTTP cfg p r).http = httpError α "Bad request" 400 ∧
      wireOf (serveHTTP cfg p r).http = (400, "Bad request\n")) ∧
    ((p.Render r).responseCode = 500 →
      (serveHTTP cfg p r).http = httpError α "Internal server error." 500 ∧
      wireOf (serveHTTP cfg p r).http = (500, "Internal server error.\n")) ∧
    noTemplate (serveHTTP cfg p r).http = true := by
  refine ⟨fun h404 => ?_, fun h400 => ?_, fun h500 => ?_, ?_⟩
  · rw [serveHTTP_http, dispatch_http_notFound _ _ _ _ h404]
    exact ⟨rfl, rfl⟩
  · rw [serveHTTP_http, dispatch_http_badRequest _ _ _ _ h400]
    exact ⟨rfl, rfl⟩
  · rw [serveHTTP_http,
      dispatch_http_fallback _ _ _ _ (by rw [h500]; decide) (by rw [h500]; decide)
        (by rw [h500]; decide) (by rw [h500]; decide), h500]
    exact ⟨rfl, rfl⟩
  · rcases h with h | h | h
    · rw [serveHTTP_http, dispatch_http_notFound _ _ _ _ h]; rfl
    · rw [serveHTTP_http, dispatch_http_badRequest _ _ _ _ h]; rfl
    · rw [serveHTTP_http,
        dispatch_http_fallback _ _ _ _ (by rw [h]; decide) (by rw [h]; decide)
          (by rw [h]; decide) (by rw [h]; decide)]; rfl

/-- Witness for C1 at the package value `StatusNotFound`. -/
theorem serveHTTP_non_ok_fixed_responses_witness :
    ((witnessPage (StatusNotFound String)).Render witnessReq).responseCode = 404 ∧
    wireOf (serveHTTP defaultConfig (witnessPage (StatusNotFound String)) witnessReq).http =
      (404, "404 page not found\n") :=
  ⟨rfl,
    ((serveHTTP_non_ok_fixed_responses defaultConfig (witnessPage (StatusNotFound String))
      witnessReq (Or.inl rfl)).1 rfl).2⟩

/-- C2 counterexample: a Result built by `UnauthorizedWith` is served with
status 401 but with the fixed error-text body `Internal server error.`
(the `else` arm of the dispatch chain), not a default 401 body — refuting
the claim's "default body ... not a fixed error-text body". -/
theorem serveHTTP_unauthorized_body_counterexample :
    wireOf (serveHTTP defaultConfig (witnessPage (UnauthorizedWith String "secret"))
        witnessReq).http =
      (401, "Internal server error.\n") := by
  rw [serveHTTP_http,
    dispatch_http_fallback _ _ _ _ (by decide) (by decide) (by decide) (by decide)]
  rfl

/-- C2 (amended): for every request and every Result with response code
401, `Page.ServeHTTP` writes status 401 with the fixed body
`Internal server error.` (plus the newline `http.Error` appends), and
executes no template. -/
theorem serveHTTP_unauthorized_fixed_error_body (cfg : Config) (p : Page α)
    (r : Request) (h : (p.Render r).responseCode = 401) :
    (serveHTTP cfg p r).http = httpError α "Internal server error." 401 ∧
    wireOf (serveHTTP cfg p r).http = (401, "Internal server error.\n") ∧
    noTemplate (serveHTTP cfg p r).http = true := by
  rw [serveHTTP_http,
    dispatch_http_fallback _ _ _ _ (by rw [h]; decide) (by rw [h]; decide)
      (by rw [h]; decide) (by rw [h]; decide), h]
  exact ⟨rfl, rfl, rfl⟩

/-- Witness for the amended C2 at `UnauthorizedWith "secret"`. -/
theorem serveHTTP_unauthorized_fixed_error_body_witness :
    ((witnessPage (UnauthorizedWith String "secret")).Render witnessReq).responseCode = 401 ∧
    wireOf (serveHTTP defaultConfig (witnessPage (UnauthorizedWith String "secret"))
        witnessReq).http =
      (401, "Internal server error.\n") :=
  ⟨rfl,
    (serveHTTP_unauthorized_fixed_error_body defaultConfig
      (witnessPage (UnauthorizedWith String "secret")) witnessReq rfl).2.1⟩

/-- C4: for every request and every Result built by `RedirectWith uri`,
`Page.ServeHTTP` writes a see-other (303) redirect whose `Location` target
is exactly `uri`, and executes no template. -/
theorem serveHTTP_redirect_see_other (cfg : Config) (p : Page α) (r : Request)
    (uri : String) (h : p.Render r = RedirectWith α uri) :
    (serveHTTP cfg p r).http =
      [HttpEvent.header "Location" uri, HttpEvent.status 303] ∧
    noTemplate (serveHTTP cfg p r).http = true := by
  rw [serveHTTP_http, h, dispatch_http_seeOther _ _ _ _ rfl]
  exact ⟨rfl, rfl⟩

/-- Witness for C4 at `RedirectWith "/next"`. -/
theorem serveHTTP_redirect_see_other_witness :
    (witnessPage (RedirectWith String "/next")).Render witnessReq =
      RedirectWith String "/next" ∧
    (serveHTTP defaultConfig (witnessPage (RedirectWith String "/next")) witnessReq).http =
      [HttpEvent.header "Location" "/next", HttpEvent.status 303] :=
  ⟨rfl,
    (serveHTTP_redirect_see_other defaultConfig (witnessPage (RedirectWith String "/next"))
      witnessReq "/next" rfl).1⟩

/-- C5: for every request and every error, `ShowError` logs the raw error
at error level and redirects see-other (303) to the site root carrying
exactly one query parameter, the configured `ErrorParam` name bound to the
configured fixed message; the raw error text appears only in the log,
never in the response. -/
theorem showError_fixed_message_redirect (α : Type) (cfg : Config) (r : Request)
    (e : String) :
    (showError α cfg r e).http =
      [HttpEvent.header "Location"
         ("/?" ++ (queryEscape cfg.ErrorParam ++ "=" ++ queryEscape cfg.BadRequestMsg)),
       HttpEvent.status 303] ∧
    (showError α cfg r e).log =
      [LogEvent.error ("returning StatusBadRequest and redirecting to " ++
        goQuote ("/?" ++ (queryEscape cfg.ErrorParam ++ "=" ++ queryEscape cfg.BadRequestMsg)) ++
        ": " ++ e ++ "\n")] :=
  ⟨rfl, rfl⟩

/-- C7: `Values.AddTo "/x"` on the two-pair bag a:1, b:2 (in either map
order) yields `/x?a=1&b=2`: the URI, a question mark, and the standard
URL query encoding with each pair present exactly once. -/
theorem values_addTo_two_pairs :
    Values.AddTo [("a", "1"), ("b", "2")] "/x" = "/x?a=1&b=2" ∧
    Values.AddTo [("b", "2"), ("a", "1")] "/x" = "/x?a=1&b=2" :=
  ⟨by decide, by decide⟩

/-- A template set defining exactly one template, named `base`, that
writes `OUT` and succeeds. -/
def witnessTmpl : TemplateSet String :=
  fun n => if n == "base" then some (fun _ => ("OUT", none)) else none

/-- A page serving `StatusOK "d"` over `witnessTmpl`. -/
def okPage : Page String :=
  { URI := "/ok", Render := fun _ => StatusOK "d", tmpl := witnessTmpl }

/-- C3: for every request and every renderer returning `StatusOK data`,
`Page.ServeHTTP` executes the template named by the configured base
template with `data` as input context, and when execution succeeds the
response is a 200 whose body is exactly the template output. -/
theorem serveHTTP_ok_executes_base_template (cfg : Config) (p : Page α)
    (r : Request) (d : α) (hrender : p.Render r = StatusOK d)
    (hexec : (executeTemplate p.tmpl cfg.BaseTemplate (some d)).2 = none) :
    (serveHTTP cfg p r).http =
      HttpEvent.tmplStart cfg.BaseTemplate (some d) ::
        (if (executeTemplate p.tmpl cfg.BaseTemplate (some d)).1 = "" then []
         else [HttpEvent.body (executeTemplate p.tmpl cfg.BaseTemplate (some d)).1]) ∧
    wireOf (serveHTTP cfg p r).http =
      (200, (executeTemplate p.tmpl cfg.BaseTemplate (some d)).1) := by
  rcases hE : executeTemplate p.tmpl cfg.BaseTemplate (some d) with ⟨out, e2⟩
  rw [hE] at hexec
  have h2 : e2 = none := hexec
  subst h2
  rw [serveHTTP_http, hrender, dispatch_ok, hE]
  refine ⟨rfl, ?_⟩
  show wireOf (HttpEvent.tmplStart cfg.BaseTemplate (some d) ::
    (if out = "" then [] else [HttpEvent.body out])) = (200, out)
  by_cases hout : out = ""
  · subst hout; rfl
  · rw [if_neg hout]
    rfl

/-- Witness for C3: `okPage` serves `StatusOK "d"`, the base template
succeeds, and the client sees status 200 with the template output. -/
theorem serveHTTP_ok_executes_base_template_witness :
    okPage.Render witnessReq = StatusOK "d" ∧
    (executeTemplate okPage.tmpl defaultConfig.BaseTemplate (some "d")).2 = none ∧
    wireOf (serveHTTP defaultConfig okPage witnessReq).http = (200, "OUT") :=
  ⟨rfl, rfl,
    (serveHTTP_ok_executes_base_template defaultConfig okPage witnessReq "d" rfl rfl).2⟩

/-- C6: two-run noninterference over the attached error.  Two pages over
the same template set whose renderers produce Results identical except for
their attached (non-nil) errors yield identical response-writer traces,
and the response part of `ShowError` does not depend on the error
argument at all. -/
theorem responses_independent_of_attached_error (cfg : Config) (p₁ p₂ : Page α)
    (r : Request) (e₁ e₂ : String)
    (htmpl : p₁.tmpl = p₂.tmpl)
    (h₁ : (p₁.Render r).err = some e₁) (h₂ : (p₂.Render r).err = some e₂)
    (hdata : (p₁.Render r).data = (p₂.Render r).data)
    (hcode : (p₁.Render r).responseCode = (p₂.Render r).responseCode)
    (hnext : (p₁.Render r).next = (p₂.Render r).next) :
    (serveHTTP cfg p₁ r).http = (serveHTTP cfg p₂ r).http ∧
    ∀ f₁ f₂ : String, (showError α cfg r f₁).http = (showError α cfg r f₂).http := by
  refine ⟨?_, fun f₁ f₂ => rfl⟩
  rw [serveHTTP_http, serveHTTP_http,
    dispatch_http_of_guard _ _ _ _ (Or.inl (by rw [h₁]; exact Option.some_ne_none e₁)),
    dispatch_http_of_guard _ _ _ _ (Or.inl (by rw [h₂]; exact Option.some_ne_none e₂)),
    hcode, hnext]

/-- Witness for C6: two bad-request Results differing only in the error
text produce identical response traces. -/
theorem responses_independent_of_attached_error_witness :
    ((witnessPage (BadRequestWith String "alpha")).Render witnessReq).err = some "alpha" ∧
    ((witnessPage (BadRequestWith String "beta")).Render witnessReq).err = some "beta" ∧
    (serveHTTP defaultConfig (witnessPage (BadRequestWith String "alpha")) witnessReq).http =
      (serveHTTP defaultConfig (witnessPage (BadRequestWith String "beta")) witnessReq).http :=
  ⟨rfl, rfl,
    (responses_independent_of_attached_error defaultConfig
      (witnessPage (BadRequestWith String "alpha")) (witnessPage (BadRequestWith String "beta"))
      witnessReq "alpha" "beta" rfl rfl rfl rfl rfl rfl).1⟩

/-- A template list that contains no template named by the configured base
name yields a template set on which the base name is undefined. -/
theorem parseFiles_undefined (srcs : List (TmplSrc α)) (n : String)
    (h : srcs.all (fun s => s.name != n) = true) : parseFiles srcs n = none := by
  have hf : srcs.reverse.find? (fun s => s.name == n) = none := by
    apply List.find?_eq_none.mpr
    intro x hx
    have hx2 := List.all_eq_true.mp h x (List.mem_reverse.mp hx)
    simpa using hx2
  unfold parseFiles
  rw [hf]
  rfl

/-- C8: `Add` on a list of parseable sources containing no template named
by the configured base identifier still returns a Page (construction does
not abort); serving an OK Result on that Page then fails at
template-execution time with the engine's undefined-template error, the
failure is logged at error level, and the client receives a 500 with body
`Internal server error.` (plus the newline `http.Error` appends). -/
theorem add_missing_base_template_500 (cfg : Config) (uri : String)
    (render : Request → Result α) (srcs : List (TmplSrc α)) (r : Request) (d : α)
    (hmiss : srcs.all (fun s => s.name != cfg.BaseTemplate) = true)
    (hrender : render r = StatusOK d) :
    Pages.Add uri render srcs =
      { URI := uri, Render := render, tmpl := parseFiles srcs } ∧
    (serveHTTP cfg (Pages.Add uri render srcs) r).http =
      HttpEvent.tmplStart cfg.BaseTemplate (some d) ::
        httpError α "Internal server error." 500 ∧
    wireOf (serveHTTP cfg (Pages.Add uri render srcs) r).http =
      (500, "Internal server error.\n") ∧
    (serveHTTP cfg (Pages.Add uri render srcs) r).log =
      [LogEvent.info ("Page " ++ uri ++ " will ServeHTTP for URL: " ++ r.url),
       LogEvent.error ("Failed to render template: " ++
         ("html/template: " ++ goQuote cfg.BaseTemplate ++ " is undefined"))] := by
  have hexec : executeTemplate (parseFiles srcs) cfg.BaseTemplate (some d) =
      ("", some ("html/template: " ++ goQuote cfg.BaseTemplate ++ " is undefined")) := by
    unfold executeTemplate
    rw [parseFiles_undefined srcs cfg.BaseTemplate hmiss]
  refine ⟨rfl, ?_, ?_, ?_⟩
  · show (dispatch cfg (parseFiles srcs) r (render r)).http = _
    rw [hrender, dispatch_ok, hexec]
    rfl
  · show wireOf (dispatch cfg (parseFiles srcs) r (render r)).http = _
    rw [hrender, dispatch_ok, hexec]
    rfl
  · show LogEvent.info ("Page " ++ uri ++ " will ServeHTTP for URL: " ++ r.url) ::
      (dispatch cfg (parseFiles srcs) r (render r)).log = _
    rw [hrender, dispatch_ok, hexec]

/-- A parseable template source named `other`, used by the C8 witness. -/
def otherSrc : TmplSrc String := { name := "other", run := fun _ => ("hi", none) }

/-- Witness for C8 with a single source named `other` and an OK renderer. -/
theorem add_missing_base_template_500_witness :
    ([otherSrc].all (fun s => s.name != defaultConfig.BaseTemplate) = true) ∧
    ((fun _ : Request => StatusOK "d") witnessReq = StatusOK ("d" : String)) ∧
    wireOf (serveHTTP defaultConfig
        (Pages.Add "/x" (fun _ => StatusOK "d") [otherSrc]) witnessReq).http =
      (500, "Internal server error.\n") :=
  ⟨by decide, rfl,
    (add_missing_base_template_500 defaultConfig "/x" (fun _ => StatusOK "d")
      [otherSrc] witnessReq "d" (by decide) rfl).2.2.1⟩

/-- The Results obtainable through the exported constructors and
package-level status values of the second version. -/
def FromAPI (pr : Result α) : Prop :=
  (∃ d, pr = StatusOK d) ∨ (∃ e, pr = BadRequestWith α e) ∨
  (∃ e, pr = UnauthorizedWith α e) ∨ (∃ e, pr = InternalErrorWith α e) ∨
  (∃ u, pr = RedirectWith α u) ∨ pr = StatusBadRequest α ∨
  pr = StatusUnauthorized α ∨ pr = StatusNotFound α ∨ pr = StatusInternalError α

/-- C9: every Result obtainable through the exported API populates only
the fields meaningful for its disposition — code 200 implies nil error and
empty next — so the guard `pr.err != nil || pr.responseCode != 200` is
equivalent to `pr.responseCode != 200`, and for such a Result with code
200 the dispatch always reaches template execution. -/
theorem api_results_guard_equivalence (pr : Result α) (h : FromAPI pr) :
    (pr.responseCode = 200 → pr.err = none ∧ pr.next = "") ∧
    ((pr.err ≠ none ∨ pr.responseCode ≠ 200) ↔ pr.responseCode ≠ 200) ∧
    (∀ (cfg : Config) (t : TemplateSet α) (r : Request), pr.responseCode = 200 →
      (dispatch cfg t r pr).http.any isTmplStart = true) := by
  rcases h with ⟨d, rfl⟩ | ⟨e, rfl⟩ | ⟨e, rfl⟩ | ⟨e, rfl⟩ | ⟨u, rfl⟩ | rfl | rfl | rfl | rfl
  · refine ⟨fun _ => ⟨rfl, rfl⟩, by simp [StatusOK], ?_⟩
    intro cfg t r h200
    rw [dispatch_ok]
    rcases hE : executeTemplate t cfg.BaseTemplate (some d) with ⟨out, e2⟩
    cases e2 <;> simp [isTmplStart]
  · exact ⟨by simp [BadRequestWith], by simp [BadRequestWith], by simp [BadRequestWith]⟩
  · exact ⟨by simp [UnauthorizedWith], by simp [UnauthorizedWith], by simp [UnauthorizedWith]⟩
  · exact ⟨by simp [InternalErrorWith], by simp [InternalErrorWith], by simp [InternalErrorWith]⟩
  · exact ⟨by simp [RedirectWith], by simp [RedirectWith], by simp [RedirectWith]⟩
  · exact ⟨by simp [StatusBadRequest], by simp [StatusBadRequest], by simp [StatusBadRequest]⟩
  · exact ⟨by simp [StatusUnauthorized], by simp [StatusUnauthorized], by simp [StatusUnauthorized]⟩
  · exact ⟨by simp [StatusNotFound], by simp [StatusNotFound], by simp [StatusNotFound]⟩
  · exact ⟨by simp [StatusInternalError], by simp [StatusInternalError], by simp [StatusInternalError]⟩

/-- Witness for C9 at `StatusOK "x"`: the guard-equivalence instance. -/
theorem api_results_guard_equivalence_witness :
    FromAPI (StatusOK "x" : Result String) ∧
    (((StatusOK "x" : Result String).err ≠ none ∨
        (StatusOK "x" : Result String).responseCode ≠ 200) ↔
      (StatusOK "x" : Result String).responseCode ≠ 200) :=
  ⟨Or.inl ⟨"x", rfl⟩,
    (api_results_guard_equivalence (StatusOK "x" : Result String) (Or.inl ⟨"x", rfl⟩)).2.1⟩

/-- C10 counterexample: on the same request and error, the two `ShowError`
implementations write different responses — the first redirects with
status 400 to `/?error=Bad+request.`, the second with status 303 to
`/?error_msg=Invalid+request.+Please+try+again+later.` — refuting the
claimed observational equivalence of the two embedded versions. -/
theorem showError_versions_differ :
    (V1.showError String defaultConfigV1 witnessReq "boom").http ≠
      (showError String defaultConfig witnessReq "boom").http := by
  decide

/-- The two versions' dispatch chains agree on every Result whose response
code is not 303 (the branch only the second version has), given the same
base-template name. -/
theorem dispatch_versions_agree (cfg1 : ConfigV1) (cfg : Config)
    (hbase : cfg.BaseTemplate = cfg1.BaseTemplate) (t : TemplateSet α)
    (r : Request) (pr : V1.Result α) (h303 : pr.responseCode ≠ 303) :
    V1.dispatch cfg1 t r pr = dispatch cfg t r (resultToV2 pr) := by
  unfold V1.dispatch dispatch
  simp only [resultToV2, hbase]
  by_cases hg : pr.err ≠ none ∨ pr.responseCode ≠ 200
  · rw [if_pos hg, if_pos hg]
    by_cases h404 : pr.responseCode = 404
    · rw [if_pos h404, if_pos h404]
    · rw [if_neg h404, if_neg h404]
      by_cases h400 : pr.responseCode = 400
      · rw [if_pos h400, if_pos h400]
      · rw [if_neg h400, if_neg h400, if_neg h303]
  · rw [if_neg hg, if_neg hg]

/-- C10 (amended): the two `ServeHTTP` implementations write identical
logs and responses for every request and every first-version Result —
equivalently, every Result whose response code is not 303, which the first
version cannot express — under the same base-template name; the two
`ShowError` implementations are not equivalent (see the counterexample). -/
theorem serveHTTP_versions_agree (cfg1 : ConfigV1) (cfg : Config)
    (hbase : cfg.BaseTemplate = cfg1.BaseTemplate) (p : V1.Page α) (r : Request)
    (h303 : (p.Render r).responseCode ≠ 303) :
    V1.serveHTTP cfg1 p r = serveHTTP cfg (pageToV2 p) r := by
  have hd := dispatch_versions_agree cfg1 cfg hbase p.tmpl r (p.Render r) h303
  unfold V1.serveHTTP serveHTTP
  simp only [pageToV2]
  rw [hd]

/-- Witness for the amended C10 at a first-version bad-request page. -/
theorem serveHTTP_versions_agree_witness :
    defaultConfig.BaseTemplate = defaultConfigV1.BaseTemplate ∧
    (((V1.Page.mk "/x" (fun _ => V1.BadRequestWith String "e") emptyTmpl).Render
        witnessReq).responseCode ≠ 303) ∧
    V1.serveHTTP defaultConfigV1
        (V1.Page.mk "/x" (fun _ => V1.BadRequestWith String "e") emptyTmpl) witnessReq =
      serveHTTP defaultConfig
        (pageToV2 (V1.Page.mk "/x" (fun _ => V1.BadRequestWith String "e") emptyTmpl))
        witnessReq :=
  ⟨rfl, by decide,
    serveHTTP_versions_agree defaultConfigV1 defaultConfig rfl
      (V1.Page.mk "/x" (fun _ => V1.BadRequestWith String "e") emptyTmpl) witnessReq
      (by decide)⟩
